import Mathlib

/-!
Shallow embedding of the year-over-year CO2 comparison logic of
`paises-co2-streamlit.py` (Emiss-o-co2-mundial), together with proofs
settling the specification claims about it.

Modelling conventions:
* pandas floating-point cells are modelled exactly: a cell is either a
  present rational number or the float NaN (`Option ℚ`, `none` = NaN);
  computations whose Python result can be the float NaN or infinity
  return a `PyFloat` (`val q`, `nan`, `inf`), mirroring the fact that
  the script never raises or signals on these paths, it produces floats.
* raw CSV cells (before cleaning) are a `Cell`: missing (`na`), numeric
  (`num`), or a non-numeric string (`text`).  Numeric-looking strings
  are represented directly as `num`, since both `pd.read_csv` and
  `pd.to_numeric` parse them; `text` stands for the strings that
  `pd.to_numeric(errors="coerce")` turns into NaN.
* dataframes are lists of records; boolean-mask filtering is
  `List.filter`, which is exactly order-preserving subsequence
  selection, and `pandas` sorting is modelled by a stable sort with
  missing keys placed last (pandas `sort_values` default
  `na_position="last"`; tie order is not relied upon by any claim).
-/

namespace CO2App

/-- A Python float as produced by the script: an actual (rational) value,
the float NaN, or the float infinity (`float("inf")`). -/
inductive PyFloat where
  | val : ℚ → PyFloat
  | nan : PyFloat
  | inf : PyFloat
deriving DecidableEq, Repr

/-- A raw CSV cell as loaded by `pd.read_csv`: missing (NaN/NA), a numeric
value, or a non-numeric string (which `pd.to_numeric(errors="coerce")`
would turn into NaN). -/
inductive Cell where
  | na : Cell
  | num : ℚ → Cell
  | text : String → Cell
deriving DecidableEq, Repr

/-- A raw row of `owid-co2-data.csv` restricted to the columns the cleaning
step looks at: `country` (string or missing), `year` (numeric or missing)
and `co2` (an arbitrary cell). -/
structure RawRecord where
  country : Option String
  year : Option ℚ
  co2 : Cell
deriving DecidableEq, Repr

/-- A cleaned row of `df_clean`: after `limpar_dados`, `country` is a
present string, `year` an integer (`astype(int)`), and `co2` the result of
`pd.to_numeric(..., errors="coerce")`, hence possibly NaN (`none`). -/
structure Record where
  country : String
  year : Int
  co2 : Option ℚ
deriving DecidableEq, Repr

/-- Embedding of `pd.to_numeric(cell, errors="coerce")` on a single cell:
numbers pass through, everything else (including non-numeric strings)
becomes NaN. -/
def to_numeric : Cell → Option ℚ
  | Cell.num q => some q
  | _ => none

/-- Truncation of a rational to an integer, as Python `astype(int)` does on
the (integral) year column. -/
def truncToInt (q : ℚ) : Int := q.num / (q.den : Int)

/-- One row of the cleaning pipeline of `limpar_dados` (lines 107-121):
`dropna(subset=["country", "year", "co2"])` drops the row when any of the
three cells is missing; the surviving rows get `year` converted by
`astype(int)` and `co2` by `pd.to_numeric(..., errors="coerce")`. -/
def cleanRow (r : RawRecord) : Option Record :=
  match r.country, r.year with
  | some c, some y =>
      if r.co2 = Cell.na then none
      else some { country := c, year := truncToInt y, co2 := to_numeric r.co2 }
  | _, _ => none

/-- The aggregate rows removed from the countries-only frame
(line 118 of the script). -/
def excludesAgg : List String := ["World", "International Transport", "EU-27", "EU-28"]

/-- Embedding of `limpar_dados` (lines 107-121): returns the pair
`(df_clean, df_countries)`. -/
def limpar_dados (df : List RawRecord) : List Record × List Record :=
  let df_clean := df.filterMap cleanRow
  let df_countries := df_clean.filter (fun r => !(excludesAgg.contains r.country))
  (df_clean, df_countries)

/-- Embedding of the year filter `df_clean[df_clean["year"] == ano]`
(lines 143-144 and 315). -/
def filterYear (df : List Record) (ano : Int) : List Record :=
  df.filter (fun r => r.year == ano)

/-- Embedding of the trend filter `df_tendencia` (lines 424-428): rows whose
country is among the selected ones and whose year lies in the chosen
interval. -/
def df_tendencia (df : List Record) (paises : List String) (anoMin anoMax : Int) :
    List Record :=
  df.filter (fun r =>
    paises.contains r.country && decide (anoMin ≤ r.year) && decide (r.year ≤ anoMax))

/-- Lifting of a present-or-NaN cell to a `PyFloat`. -/
def toPyFloat : Option ℚ → PyFloat
  | some q => PyFloat.val q
  | none => PyFloat.nan

/-- Embedding of `df[df["country"] == "World"]` (lines 174-175). -/
def worldRows (df : List Record) : List Record :=
  df.filter (fun r => r.country == "World")

/-- Embedding of `frame["co2"].values[0]` on a dataframe: the `co2` cell of
the first row, as a float (NaN when that cell is missing; the script only
evaluates this on frames it has checked to be non-empty). -/
def firstValue (df : List Record) : PyFloat :=
  match df.head? with
  | some r => toPyFloat r.co2
  | none => PyFloat.nan

/-- The `co2` column of a dataframe, as a list of present-or-NaN cells. -/
def co2Col (df : List Record) : List (Option ℚ) := df.map (fun r => r.co2)

/-- Embedding of pandas `Series.mean()` with its default `skipna=True`:
the arithmetic mean of the present values; the float NaN when no value is
present (in particular on an empty column). -/
def seriesMean (xs : List (Option ℚ)) : PyFloat :=
  let present := xs.filterMap id
  if present.isEmpty then PyFloat.nan
  else PyFloat.val (present.sum / (present.length : ℚ))

/-- Embedding of the global-mean computation `media1, media2`
(lines 174-182): when both year frames contain a "World" row, the first
"World" row of each year supplies the value; otherwise both values are the
column means of the respective year frames. -/
def medias (df_ano1 df_ano2 : List Record) : PyFloat × PyFloat :=
  if !(worldRows df_ano1).isEmpty && !(worldRows df_ano2).isEmpty then
    (firstValue (worldRows df_ano1), firstValue (worldRows df_ano2))
  else
    (seriesMean (co2Col df_ano1), seriesMean (co2Col df_ano2))

/-- Embedding of `df[df["country"] == pais]["co2"].values[0]` (lines
255-256): the `co2` value of the first row of the given country, `none`
both when the country is absent from the frame (Python would raise an
IndexError there; the script only reaches this for countries present in
both years) and when the stored cell is NaN. -/
def countryValue (df : List Record) (pais : String) : Option ℚ :=
  ((df.filter (fun r => r.country == pais)).head?).bind (fun r => r.co2)

/-- Embedding of the percentage-variation computation `var_pct`
(lines 258-262): a finite percentage when `v1 > 0`, otherwise
`float("inf")` when `v2 > 0` and the float `0` when not. -/
def var_pct (v1 v2 : ℚ) : PyFloat :=
  if 0 < v1 then PyFloat.val ((v2 - v1) / v1 * 100)
  else if 0 < v2 then PyFloat.inf
  else PyFloat.val 0

/-- The pair (absolute difference `dif = v2 - v1`, line 283; percentage
variation `var_pct`, lines 258-262) the script derives for one country
from its values at the two selected years. -/
def deltaPair (v1 v2 : ℚ) : ℚ × PyFloat := (v2 - v1, var_pct v1 v2)

/-- Stable descending insertion on a sort key with missing keys compared as
`0` placeholders (the inserted row goes before the first row with a
strictly smaller key). -/
def insertDesc (key : Record → Option ℚ) (r : Record) : List Record → List Record
  | [] => [r]
  | x :: xs =>
      if (key x).getD 0 < (key r).getD 0 then r :: x :: xs
      else x :: insertDesc key r xs

/-- Stable descending sort of the rows with a present key. -/
def sortPresentDesc (key : Record → Option ℚ) (df : List Record) : List Record :=
  (df.filter (fun r => (key r).isSome)).foldr (insertDesc key) []

/-- Embedding of `df.sort_values(by=metric, ascending=False)` (line 387):
rows with a present metric in descending metric order, rows with a missing
metric last (pandas default `na_position="last"`); modelled with a stable
sort, no claim depends on the order of ties. -/
def sort_values_desc (key : Record → Option ℚ) (df : List Record) : List Record :=
  sortPresentDesc key df ++ df.filter (fun r => (key r).isNone)

/-- Embedding of `top10 = df_mapa.sort_values(by=metrica_mapa,
ascending=False).head(10)` (line 387). -/
def top10 (key : Record → Option ℚ) (df : List Record) : List Record :=
  (sort_values_desc key df).take 10

/-- The sort key for the `co2` metric. -/
def co2Key (r : Record) : Option ℚ := r.co2

/-- Embedding of the dictionary returned by `get_country_codes`
(lines 86-95): a fixed map from a country name to its ISO code. -/
def get_country_codes : List (String × String) :=
  [("World", "OWID_WRL"), ("United States", "USA"), ("China", "CHN"),
   ("India", "IND"), ("Russia", "RUS"), ("Brazil", "BRA"),
   ("Germany", "DEU"), ("United Kingdom", "GBR"), ("France", "FRA"),
   ("Japan", "JPN"), ("Canada", "CAN"), ("Australia", "AUS")]

/-- Embedding of one element of `df["country"].map(get_country_codes())`
(line 76): pandas `Series.map` with a dictionary returns the mapped value
for a key present in the dictionary and NaN (`none`) otherwise. -/
def mapCountryCode (name : String) : Option String :=
  get_country_codes.lookup name

/-- The four-record end-to-end dataset used by the testable properties of
the specification. -/
def e2eDataset : List Record :=
  [⟨"Brazil", 2000, some 400⟩, ⟨"Brazil", 2010, some 500⟩,
   ⟨"China", 2000, some 3000⟩, ⟨"China", 2010, some 9000⟩]

/-- The descending-key relation the sorted output satisfies: a later row
never has a larger (present-defaulted) key than an earlier one. -/
def keyGE (key : Record → Option ℚ) (a b : Record) : Prop :=
  (key b).getD 0 ≤ (key a).getD 0

/-- A dataset on which both selected years carry a "World" row whose value
differs from the arithmetic mean of its year. -/
def worldCexDataset : List Record :=
  [⟨"World", 2000, some 100⟩, ⟨"A", 2000, some 10⟩, ⟨"World", 2010, some 7⟩]

/-- A two-year dataset for the ranking claims: country "C" has a zero
base-year (2019) value, hence an undefined percentage delta; its 2020
values rank the countries by value as A (100), B (50), C (30), while the
percentage deltas from 2019 rank B (4900 percent) above A (0 percent). -/
def rankDataset : List Record :=
  [⟨"A", 2019, some 100⟩, ⟨"A", 2020, some 100⟩,
   ⟨"B", 2019, some 1⟩, ⟨"B", 2020, some 50⟩,
   ⟨"C", 2019, some 0⟩, ⟨"C", 2020, some 30⟩]

/-- A raw dataset exercising the cleaning pipeline: an ordinary row, a row
whose co2 cell is a present but non-numeric string, a row with a missing
country, and an aggregate ("World") row. -/
def rawCexDataset : List RawRecord :=
  [⟨some "Brazil", some 2000, Cell.num 400⟩,
   ⟨some "A", some 2000, Cell.text "abc"⟩,
   ⟨none, some 2000, Cell.num 5⟩,
   ⟨some "World", some 2000, Cell.num 100⟩]

/-- A successful association-list lookup returns a pair of the list. -/
theorem lookup_mem {l : List (String × String)} {k v : String}
    (h : l.lookup k = some v) : (k, v) ∈ l := by
  induction l with
  | nil => simp [List.lookup] at h
  | cons p t ih =>
    rw [List.lookup] at h
    split at h
    · rename_i heq
      simp at heq
      cases h
      simp [heq]
    · simp [ih h]

/-- The head of a boolean-mask filter is the first matching row. -/
theorem head?_filter_eq_find? {α : Type} (p : α → Bool) (l : List α) :
    (l.filter p).head? = l.find? p := by
  induction l with
  | nil => rfl
  | cons a t ih =>
    by_cases h : p a
    · simp [List.filter_cons, List.find?_cons, h]
    · simp [List.filter_cons, List.find?_cons, h, ih]

/-- Membership in a descending insertion. -/
theorem mem_insertDesc {key : Record → Option ℚ} {r x : Record} {l : List Record} :
    x ∈ insertDesc key r l ↔ x = r ∨ x ∈ l := by
  induction l with
  | nil => simp [insertDesc]
  | cons a t ih =>
    by_cases h : (key a).getD 0 < (key r).getD 0
    · simp only [insertDesc, if_pos h, List.mem_cons]
    · simp only [insertDesc, if_neg h, List.mem_cons, ih]
      tauto

/-- Descending insertion preserves the descending-key ordering. -/
theorem pairwise_insertDesc {key : Record → Option ℚ} {r : Record} {l : List Record}
    (h : List.Pairwise (keyGE key) l) :
    List.Pairwise (keyGE key) (insertDesc key r l) := by
  induction l with
  | nil => simp [insertDesc]
  | cons a t ih =>
    rcases List.pairwise_cons.mp h with ⟨ha, ht⟩
    by_cases hlt : (key a).getD 0 < (key r).getD 0
    · rw [insertDesc, if_pos hlt]
      refine List.pairwise_cons.mpr ⟨?_, h⟩
      intro y hy
      rcases List.mem_cons.mp hy with rfl | hyt
      · exact le_of_lt hlt
      · exact le_trans (ha y hyt) (le_of_lt hlt)
    · rw [insertDesc, if_neg hlt]
      refine List.pairwise_cons.mpr ⟨?_, ih ht⟩
      intro y hy
      rcases mem_insertDesc.mp hy with rfl | hyt
      · exact le_of_not_lt hlt
      · exact ha y hyt

/-- The present-key part of the sort is descending on the key. -/
theorem pairwise_sortPresentDesc (key : Record → Option ℚ) (df : List Record) :
    List.Pairwise (keyGE key) (sortPresentDesc key df) := by
  unfold sortPresentDesc
  generalize df.filter (fun r => (key r).isSome) = l
  induction l with
  | nil => simp
  | cons a t ih => exact pairwise_insertDesc ih

/-- Membership in the present-key part of the sort. -/
theorem mem_sortPresentDesc {key : Record → Option ℚ} {df : List Record} {x : Record} :
    x ∈ sortPresentDesc key df ↔ x ∈ df.filter (fun r => (key r).isSome) := by
  unfold sortPresentDesc
  generalize df.filter (fun r => (key r).isSome) = l
  induction l with
  | nil => simp
  | cons a t ih => simp [mem_insertDesc, ih]

/-- C1, counterexample.  The claim says that for a zero base-year value the
percentage change is reported as a distinct undefined outcome and in
particular is never coerced to infinity, with delta(0, 50) = (50,
undefined).  The script (lines 258-262) instead computes
`var_pct = float("inf")` there: delta(0, 50) evaluates to the pair
(50, float infinity). -/
theorem var_pct_zero_base_cex : deltaPair 0 50 = (50, PyFloat.inf) := by
  unfold deltaPair var_pct
  norm_num

/-- C1, amended.  When the base-year value is 0 (indeed whenever it is not
strictly positive), the percentage change is not a raw division result,
but it is silently coerced: to the float infinity when the second value is
positive and to the float 0 otherwise; there is no distinct undefined
outcome. -/
theorem var_pct_zero_base (v2 : ℚ) :
    var_pct 0 v2 = if 0 < v2 then PyFloat.inf else PyFloat.val 0 := by
  unfold var_pct
  simp

/-- C4, counterexample.  The claim says reconcile("USA") is the canonical
name "United States of America" and reconcile("Freedonia") falls back to
"Freedonia".  The only name table in the script, `get_country_codes`
(lines 86-95), maps country names to ISO codes and is applied with
`Series.map` (line 76), whose fallback for unknown keys is NaN: "USA" is
not a key of the table (it is a value), and "Freedonia" maps to NaN, not
to itself. -/
theorem mapCountryCode_cex :
    mapCountryCode "USA" = none ∧ mapCountryCode "Freedonia" = none := by
  constructor <;> decide

/-- C4, amended.  The name map is total over strings into an optional
result: a successful lookup returns the ISO code paired with the name in
the static table (for example "United States" maps to "USA" and "World"
to "OWID_WRL"), and a name with no table entry maps to an absent value
(NaN), not to the original string. -/
theorem mapCountryCode_iso (name code : String)
    (h : mapCountryCode name = some code) :
    (name, code) ∈ get_country_codes ∧
    mapCountryCode "United States" = some "USA" ∧
    mapCountryCode "World" = some "OWID_WRL" ∧
    mapCountryCode "Freedonia" = none :=
  ⟨lookup_mem h, by decide, by decide, by decide⟩

/-- C4, witness for the amended theorem at the concrete name
"United States". -/
theorem mapCountryCode_iso_witness :
    ("United States", "USA") ∈ get_country_codes :=
  (mapCountryCode_iso "United States" "USA" (by decide)).1

/-- C6, counterexample.  The claim quantifies over every pair with
valueAtA different from 0, but the script tests `v1 > 0` (line 259):
at valueAtA = -50, valueAtB = 50 the claimed result is the pair
(100, -200%), while the script produces (100, float infinity). -/
theorem delta_negative_base_cex :
    deltaPair (-50) 50 = (100, PyFloat.inf) ∧
    PyFloat.inf ≠ PyFloat.val ((50 - (-50)) / (-50) * 100) := by
  refine ⟨?_, by simp⟩
  unfold deltaPair var_pct
  norm_num

/-- C6, amended.  For every pair of values with valueAtA strictly
positive, the script returns the pair (valueAtB - valueAtA,
(valueAtB - valueAtA) / valueAtA * 100); the concrete evaluations of the
claim all have positive bases and hold: delta(100, 150) = (50, 50%),
delta(100, 50) = (-50, -50%), and on the end-to-end dataset Brazil reads
400 and 500 with delta (100, 25%) and China reads 3000 and 9000 with
delta (6000, 200%). -/
theorem delta_positive_base (v1 v2 : ℚ) (h : 0 < v1) :
    deltaPair v1 v2 = (v2 - v1, PyFloat.val ((v2 - v1) / v1 * 100)) ∧
    deltaPair 100 150 = (50, PyFloat.val 50) ∧
    deltaPair 100 50 = (-50, PyFloat.val (-50)) ∧
    countryValue (filterYear e2eDataset 2000) "Brazil" = some 400 ∧
    countryValue (filterYear e2eDataset 2010) "Brazil" = some 500 ∧
    deltaPair 400 500 = (100, PyFloat.val 25) ∧
    countryValue (filterYear e2eDataset 2000) "China" = some 3000 ∧
    countryValue (filterYear e2eDataset 2010) "China" = some 9000 ∧
    deltaPair 3000 9000 = (6000, PyFloat.val 200) := by
  refine ⟨?_, ?_, ?_, by decide, by decide, ?_, by decide, by decide, ?_⟩
  · unfold deltaPair var_pct
    rw [if_pos h]
  all_goals norm_num [deltaPair, var_pct]

/-- C6, witness for the amended theorem at the base 100. -/
theorem delta_positive_base_witness :
    (0 : ℚ) < 100 ∧
    deltaPair 100 150 = (150 - 100, PyFloat.val ((150 - 100) / 100 * 100)) :=
  ⟨by norm_num, (delta_positive_base 100 150 (by norm_num)).1⟩

/-- C7, confirmed.  Both filters of the script (the year filter of lines
143-144 and the year-range and country filter of lines 424-428) return
the order-preserving subsequence of the rows satisfying all supplied
predicates, and return the empty sequence (not an error: the embedding is
a total function into lists) when no row matches. -/
theorem filter_matching_subsequence (df : List Record) (ano : Int)
    (paises : List String) (anoMin anoMax : Int) :
    (filterYear df ano).Sublist df ∧
    (∀ r, r ∈ filterYear df ano ↔ r ∈ df ∧ r.year = ano) ∧
    ((∀ r ∈ df, r.year ≠ ano) → filterYear df ano = []) ∧
    (df_tendencia df paises anoMin anoMax).Sublist df ∧
    (∀ r, r ∈ df_tendencia df paises anoMin anoMax ↔
      r ∈ df ∧ r.country ∈ paises ∧ anoMin ≤ r.year ∧ r.year ≤ anoMax) := by
  refine ⟨List.filter_sublist df, ?_, ?_, List.filter_sublist df, ?_⟩
  · intro r
    simp [filterYear, List.mem_filter]
  · intro h
    simp only [filterYear, List.filter_eq_nil_iff]
    intro r hr
    simp [h r hr]
  · intro r
    simp [df_tendencia, List.mem_filter, and_assoc]

/-- C7, witness: on the end-to-end dataset, filtering by the year 1999
(which matches no row) yields the empty sequence. -/
theorem filter_matching_subsequence_witness : filterYear e2eDataset 1999 = [] :=
  (filter_matching_subsequence e2eDataset 1999 [] 0 0).2.2.1 (by decide)

/-- A non-empty list has a false `isEmpty` flag. -/
theorem isEmpty_false_of_ne_nil {α : Type} {l : List α} (h : l ≠ []) :
    l.isEmpty = false := by
  cases hb : l.isEmpty
  · rfl
  · exact absurd (List.isEmpty_iff.mp hb) h

/-- The "World" selection is empty exactly when no row is a "World" row. -/
theorem worldRows_eq_nil_iff {df : List Record} :
    worldRows df = [] ↔ ∀ r ∈ df, r.country ≠ "World" := by
  simp [worldRows, List.filter_eq_nil_iff]

/-- C2, counterexample.  The claim says the global mean of a year with
present values is the arithmetic mean over exactly those values.  On a
dataset whose two selected years both carry a "World" row (lines 174-179
of the script), the value used is the "World" row value instead: for the
year 2000 the script uses 100 while the arithmetic mean of the two
present values 100 and 10 is 55. -/
theorem medias_world_cex :
    co2Col (filterYear worldCexDataset 2000) = [some 100, some 10] ∧
    (medias (filterYear worldCexDataset 2000) (filterYear worldCexDataset 2010)).1
      = PyFloat.val 100 ∧
    seriesMean [some 100, some 10] = PyFloat.val 55 ∧
    PyFloat.val (100 : ℚ) ≠ PyFloat.val 55 := by
  refine ⟨by decide, by decide, ?_, by decide⟩
  have h1 : List.filterMap id [some (100 : ℚ), some 10] = [100, 10] := by decide
  simp only [seriesMean, h1]
  rw [if_neg (by decide)]
  norm_num

/-- C2, amended.  Whenever at least one of the two selected years has no
"World" row, the script uses for both years the pandas column mean, which
is the arithmetic mean over exactly the present values, absent values
excluded from numerator and denominator: the mean of [10, None, 20] is
15, not 10. -/
theorem medias_fallback_mean (df1 df2 : List Record)
    (h : (worldRows df1).isEmpty = true ∨ (worldRows df2).isEmpty = true) :
    medias df1 df2 = (seriesMean (co2Col df1), seriesMean (co2Col df2)) ∧
    seriesMean [some 10, none, some 20] = PyFloat.val 15 := by
  constructor
  · unfold medias
    rcases h with h | h <;> simp [h]
  · have h1 : List.filterMap id [some (10 : ℚ), none, some 20] = [10, 20] := by decide
    simp only [seriesMean, h1]
    rw [if_neg (by decide)]
    norm_num

/-- C2, witness for the amended theorem: the end-to-end dataset has no
"World" row, so both means are column means. -/
theorem medias_fallback_mean_witness :
    (worldRows e2eDataset).isEmpty = true ∧
    medias e2eDataset e2eDataset
      = (seriesMean (co2Col e2eDataset), seriesMean (co2Col e2eDataset)) :=
  ⟨by decide, (medias_fallback_mean e2eDataset e2eDataset (Or.inl (by decide))).1⟩

/-- C3, counterexample.  The claim says the global-mean computation fails
with a distinct recoverable NoDataForYear error when a year has zero
eligible records.  The script has no such error: for a year with no rows
the pandas mean of the empty column is the float NaN, an ordinary float
value that flows on into the later display computations (lines 181-182,
212, 272). -/
theorem medias_empty_year_nan_cex :
    filterYear worldCexDataset 1999 = [] ∧
    (medias (filterYear worldCexDataset 1999) (filterYear worldCexDataset 2010)).1
      = PyFloat.nan := by
  constructor <;> decide

/-- C3, amended.  When a year has zero eligible records (no row of the
year carries a present co2 value), the value computed for that year is
the float NaN - either as the empty-column pandas mean or as a NaN
"World" cell - and no error of any kind is signalled. -/
theorem medias_no_eligible_nan (df1 df2 : List Record)
    (h : ∀ r ∈ df1, r.co2 = none) :
    (medias df1 df2).1 = PyFloat.nan := by
  unfold medias
  by_cases hw : (!(worldRows df1).isEmpty && !(worldRows df2).isEmpty) = true
  · rw [if_pos hw]
    show firstValue (worldRows df1) = PyFloat.nan
    unfold firstValue
    cases hh : (worldRows df1).head? with
    | none => rfl
    | some r =>
      have hr : r ∈ worldRows df1 := List.mem_of_mem_head? (by rw [hh]; rfl)
      have hc : r.co2 = none := h r (List.mem_filter.mp hr).1
      simp [toPyFloat, hc]
  · rw [if_neg hw]
    show seriesMean (co2Col df1) = PyFloat.nan
    unfold seriesMean co2Col
    have he : List.filterMap id (df1.map (fun r => r.co2)) = [] := by
      rw [List.filterMap_eq_nil_iff]
      intro a ha
      rcases List.mem_map.mp ha with ⟨r, hrm, rfl⟩
      exact h r hrm
    simp [he]

/-- C3, witness for the amended theorem on the empty dataframe. -/
theorem medias_no_eligible_nan_witness : (medias [] []).1 = PyFloat.nan :=
  medias_no_eligible_nan [] [] (by simp)

/-- C9, confirmed.  Whenever both selected years carry a "World" row, the
pair of global-mean values the comparison uses is exactly the pair of co2
values of the first "World" row of each year; in every other case both
values are the pandas column means of the respective years (over all rows
of the year of `df_clean`, aggregates included); the two definitions come
from the same branch, never mixed. -/
theorem medias_world_or_mean (df1 df2 : List Record) :
    ((∃ r ∈ df1, r.country = "World") → (∃ r ∈ df2, r.country = "World") →
      ∃ w1, (df1.find? (fun r => r.country == "World")) = some w1 ∧
      ∃ w2, (df2.find? (fun r => r.country == "World")) = some w2 ∧
        medias df1 df2 = (toPyFloat w1.co2, toPyFloat w2.co2)) ∧
    (((∀ r ∈ df1, r.country ≠ "World") ∨ (∀ r ∈ df2, r.country ≠ "World")) →
      medias df1 df2 = (seriesMean (co2Col df1), seriesMean (co2Col df2))) := by
  constructor
  · intro h1 h2
    have e1 : worldRows df1 ≠ [] := by
      rw [Ne, worldRows_eq_nil_iff]
      push_neg
      exact h1
    have e2 : worldRows df2 ≠ [] := by
      rw [Ne, worldRows_eq_nil_iff]
      push_neg
      exact h2
    cases hh1 : (worldRows df1).head? with
    | none => exact absurd (List.head?_eq_none_iff.mp hh1) e1
    | some w1 =>
      cases hh2 : (worldRows df2).head? with
      | none => exact absurd (List.head?_eq_none_iff.mp hh2) e2
      | some w2 =>
        refine ⟨w1, ?_, w2, ?_, ?_⟩
        · rw [← head?_filter_eq_find?]
          exact hh1
        · rw [← head?_filter_eq_find?]
          exact hh2
        · unfold medias
          rw [isEmpty_false_of_ne_nil e1, isEmpty_false_of_ne_nil e2]
          simp only [Bool.not_false, Bool.and_self, if_pos]
          unfold firstValue
          rw [hh1, hh2]
  · intro h
    have : (!(worldRows df1).isEmpty && !(worldRows df2).isEmpty) = false := by
      rcases h with h | h
      · have : worldRows df1 = [] := worldRows_eq_nil_iff.mpr h
        simp [this]
      · have : worldRows df2 = [] := worldRows_eq_nil_iff.mpr h
        simp [this]
    unfold medias
    rw [this]
    rfl

/-- C9, witness: on the two-World dataset the comparison uses the first
"World" row of each year. -/
theorem medias_world_or_mean_witness :
    medias (filterYear worldCexDataset 2000) (filterYear worldCexDataset 2010)
      = (PyFloat.val 100, PyFloat.val 7) := by
  obtain ⟨w1, hw1, w2, hw2, hm⟩ :=
    (medias_world_or_mean (filterYear worldCexDataset 2000)
        (filterYear worldCexDataset 2010)).1
      ⟨⟨"World", 2000, some 100⟩, by decide, rfl⟩
      ⟨⟨"World", 2010, some 7⟩, by decide, rfl⟩
  have c1 : (filterYear worldCexDataset 2000).find? (fun r => r.country == "World")
      = some ⟨"World", 2000, some 100⟩ := by decide
  have c2 : (filterYear worldCexDataset 2010).find? (fun r => r.country == "World")
      = some ⟨"World", 2010, some 7⟩ := by decide
  rw [c1] at hw1
  rw [c2] at hw2
  rw [hm, ← Option.some.inj hw1, ← Option.some.inj hw2]
  rfl

/-- C8, confirmed.  Filtering a dataset by a year and re-filtering the
result by the same year returns the identical sequence as filtering
once. -/
theorem filterYear_idempotent (df : List Record) (ano : Int) :
    filterYear (filterYear df ano) ano = filterYear df ano := by
  unfold filterYear
  rw [List.filter_filter]
  have h : (fun (r : Record) => (r.year == ano) && (r.year == ano)) =
      fun (r : Record) => r.year == ano := funext fun r => Bool.and_self _
  rw [h]

/-- C5, counterexample.  The claim says the rankings sort by percentage
delta and that a country with an undefined percentage delta (zero
base-year value) never appears in a ranking.  The only ranking of the
script (line 387) sorts the selected year by the metric value itself:
on `rankDataset`, country "C" has base-year value 0 - so `var_pct`
yields the undefined-percentage case, coerced to the float infinity -
and still appears in the ranking, which reads A, B, C (by 2020 value)
rather than the percentage-delta order B, A. -/
theorem top10_includes_zero_base_cex :
    countryValue (filterYear rankDataset 2019) "C" = some 0 ∧
    var_pct 0 30 = PyFloat.inf ∧
    (top10 co2Key (filterYear rankDataset 2020)).map (fun r => r.country)
      = ["A", "B", "C"] := by
  refine ⟨by decide, by decide, by decide⟩

/-- C5, amended.  The single "top 10" ranking takes the rows of the
selected year, sorts them by the selected metric value descending with
missing values last, and keeps the first ten: its length is at most 10,
its rows all come from the input frame, and whenever a later row has a
present metric the earlier row has a present metric at least as large.
Percentage deltas play no role and no row is excluded for having a zero
or undefined base. -/
theorem top10_sorted_by_value (key : Record → Option ℚ) (df : List Record) :
    (top10 key df).length ≤ 10 ∧
    (∀ r, r ∈ top10 key df → r ∈ df) ∧
    List.Pairwise
      (fun a b => (key b).isSome = true → (key a).isSome = true ∧ keyGE key a b)
      (top10 key df) := by
  refine ⟨List.length_take_le 10 _, ?_, ?_⟩
  · intro r hr
    have hr2 : r ∈ sort_values_desc key df :=
      (List.take_sublist 10 _).subset hr
    rcases List.mem_append.mp hr2 with h | h
    · exact (List.mem_filter.mp (mem_sortPresentDesc.mp h)).1
    · exact (List.mem_filter.mp h).1
  · apply List.Pairwise.sublist (List.take_sublist 10 _)
    rw [sort_values_desc, List.pairwise_append]
    refine ⟨?_, ?_, ?_⟩
    · refine List.Pairwise.imp_of_mem ?_ (pairwise_sortPresentDesc key df)
      intro a b ha hb hk
      intro _
      have : (key a).isSome = true :=
        (List.mem_filter.mp (mem_sortPresentDesc.mp ha)).2
      exact ⟨this, hk⟩
    · refine List.pairwise_of_forall_mem_list ?_
      intro a _ b hb
      intro hbs
      have : (key b).isNone = true := (List.mem_filter.mp hb).2
      rw [Option.isNone_iff_eq_none.mp this] at hbs
      cases hbs
    · intro a _ b hb
      intro hbs
      have : (key b).isNone = true := (List.mem_filter.mp hb).2
      rw [Option.isNone_iff_eq_none.mp this] at hbs
      cases hbs

/-- C5, witness for the amended theorem: the head row of the concrete
ranking belongs to the filtered frame. -/
theorem top10_sorted_by_value_witness :
    (⟨"A", 2020, some 100⟩ : Record) ∈ filterYear rankDataset 2020 :=
  (top10_sorted_by_value co2Key (filterYear rankDataset 2020)).2.1
    ⟨"A", 2020, some 100⟩ (by decide)

/-- C10, counterexample.  The claim says every record of the cleaned
dataset has a present co2 value.  `limpar_dados` drops missing cells
first (line 109) and coerces co2 to numeric afterwards (line 115), so a
present but non-numeric co2 cell survives the drop and becomes NaN: the
cleaned output of `rawCexDataset` contains the record ("A", 2000, NaN)
with an absent co2 value. -/
theorem limpar_dados_absent_co2_cex :
    (limpar_dados rawCexDataset).1 =
      [⟨"Brazil", 2000, some 400⟩, ⟨"A", 2000, none⟩, ⟨"World", 2000, some 100⟩] ∧
    (⟨"A", 2000, none⟩ : Record) ∈ (limpar_dados rawCexDataset).1 := by
  constructor <;> decide

/-- C10, amended.  Every record of the cleaned dataset comes from a raw
row whose country, year and co2 cells were all present (rows with a
missing one are dropped before any filtering or aggregation), has that
row's country and an integer year, and carries `to_numeric` of that
row's co2 cell - in particular a present numeric cell stays present,
while a present non-numeric cell is coerced to absent because the
coercion runs after the drop.  The countries-only dataset is a subset of
the cleaned one containing no "World", "International Transport",
"EU-27" or "EU-28" record. -/
theorem limpar_dados_invariants (df : List RawRecord) (r : Record)
    (h : r ∈ (limpar_dados df).1) (s : Record) (hs : s ∈ (limpar_dados df).2) :
    (∃ rr ∈ df, rr.country = some r.country ∧ rr.year ≠ none ∧
      rr.co2 ≠ Cell.na ∧ r.co2 = to_numeric rr.co2 ∧
      ∀ q, rr.co2 = Cell.num q → r.co2 = some q) ∧
    s ∈ (limpar_dados df).1 ∧ s.country ∉ excludesAgg := by
  refine ⟨?_, ?_, ?_⟩
  · rcases List.mem_filterMap.mp h with ⟨rr, hrr, hclean⟩
    refine ⟨rr, hrr, ?_⟩
    unfold cleanRow at hclean
    split at hclean
    · rename_i c y heq1 heq2
      by_cases hna : rr.co2 = Cell.na
      · rw [if_pos hna] at hclean
        cases hclean
      · rw [if_neg hna] at hclean
        have hinj := Option.some.inj hclean
        subst hinj
        refine ⟨by rw [heq1], by simp [heq2], hna, rfl, ?_⟩
        intro q hq
        show to_numeric rr.co2 = some q
        rw [hq]
        rfl
    · cases hclean
  · exact (List.mem_filter.mp hs).1
  · have := (List.mem_filter.mp hs).2
    simpa using this

/-- C10, witness for the amended theorem at the concrete raw dataset. -/
theorem limpar_dados_invariants_witness :
    (⟨"Brazil", 2000, some 400⟩ : Record) ∈ (limpar_dados rawCexDataset).1 ∧
    (⟨"Brazil", 2000, some 400⟩ : Record).country ∉ excludesAgg :=
  ⟨(limpar_dados_invariants rawCexDataset ⟨"A", 2000, none⟩ (by decide)
      ⟨"Brazil", 2000, some 400⟩ (by decide)).2.1,
   (limpar_dados_invariants rawCexDataset ⟨"A", 2000, none⟩ (by decide)
      ⟨"Brazil", 2000, some 400⟩ (by decide)).2.2⟩

end CO2App
